import Mathlib

/-!
Shallow embedding of `examples/flask-kitchensink/app.py`: startup
configuration checks, the `/callback` webhook endpoint, the two event
handlers, and the streaming aggregator `call_dify_api`.

Python strings are Lean `String`s, bytes payloads are `List Nat`, and a
streamed HTTP body is the list of (already UTF-8 decoded) lines produced by
`response.iter_lines()`.  Python exceptions that the code can raise and does
not catch are modelled with `Except`.
-/

/-- A JSON value as produced by Python's `json.loads`.  Numbers are kept as
integers (the streamed frames the program consumes carry strings; fractional
and exponent literals are rejected by the embedded parser, a restriction no
claim depends on). -/
inductive JsonVal where
  | null : JsonVal
  | bool (b : Bool) : JsonVal
  | num (n : Int) : JsonVal
  | str (s : String) : JsonVal
  | arr (elems : List JsonVal) : JsonVal
  | obj (fields : List (String × JsonVal)) : JsonVal

/-- JSON whitespace accepted between tokens by `json.loads`. -/
def isJsonWs (c : Char) : Bool :=
  c = ' ' || c = '\t' || c = '\n' || c = '\r'

/-- Drop leading JSON whitespace. -/
def skipWs : List Char → List Char
  | [] => []
  | c :: cs => if isJsonWs c then skipWs cs else c :: cs

/-- Value of a hexadecimal digit, for `\uXXXX` escapes. -/
def hexDigit (c : Char) : Option Nat :=
  if '0' ≤ c ∧ c ≤ '9' then some (c.toNat - '0'.toNat)
  else if 'a' ≤ c ∧ c ≤ 'f' then some (c.toNat - 'a'.toNat + 10)
  else if 'A' ≤ c ∧ c ≤ 'F' then some (c.toNat - 'A'.toNat + 10)
  else none

/-- Parse the body of a JSON string literal (the opening quote already
consumed); returns the decoded characters and the input after the closing
quote.  Mirrors `json.loads`: the standard escapes are decoded, unescaped
control characters are rejected.  `\uXXXX` escapes that do not denote a
valid scalar value are rejected (Python would keep the lone surrogate; no
frame in play contains one). -/
def parseStrChars (fuel : Nat) (input : List Char) :
    Option (List Char × List Char) :=
  match fuel with
  | 0 => none
  | fuel + 1 =>
    match input with
    | [] => none
    | c :: cs =>
      if c = '"' then some ([], cs)
      else if c = '\\' then
        match cs with
        | [] => none
        | e :: cs2 =>
          let push (d : Char) (rest : List Char) :=
            match parseStrChars fuel rest with
            | some (out, r) => some (d :: out, r)
            | none => none
          if e = '"' then push '"' cs2
          else if e = '\\' then push '\\' cs2
          else if e = '/' then push '/' cs2
          else if e = 'b' then push '\x08' cs2
          else if e = 'f' then push '\x0c' cs2
          else if e = 'n' then push '\n' cs2
          else if e = 'r' then push '\r' cs2
          else if e = 't' then push '\t' cs2
          else if e = 'u' then
            match cs2 with
            | h1 :: h2 :: h3 :: h4 :: cs3 =>
              match hexDigit h1, hexDigit h2, hexDigit h3, hexDigit h4 with
              | some a, some b, some c3, some d4 =>
                let n := ((a * 16 + b) * 16 + c3) * 16 + d4
                if h : n.isValidChar then push (Char.ofNatAux n h) cs3
                else none
              | _, _, _, _ => none
            | _ => none
          else none
      else if c.toNat < 0x20 then none
      else
        match parseStrChars fuel cs with
        | some (out, r) => some (c :: out, r)
        | none => none

/-- Parse a JSON integer literal (`-?(0|[1-9][0-9]*)`); fractional or
exponent parts make the whole parse fail. -/
def parseIntLit (input : List Char) : Option (Int × List Char) :=
  let (neg, body) :=
    match input with
    | '-' :: rest => (true, rest)
    | _ => (false, input)
  let digits := body.takeWhile Char.isDigit
  let rest := body.dropWhile Char.isDigit
  if digits.isEmpty then none
  else if digits.length > 1 ∧ digits.headD '0' = '0' then none
  else
    match rest with
    | '.' :: _ => none
    | 'e' :: _ => none
    | 'E' :: _ => none
    | _ =>
      let n : Nat := digits.foldl (fun acc c => acc * 10 + (c.toNat - '0'.toNat)) 0
      some (if neg then -(n : Int) else (n : Int), rest)

/-- Check that `pre` is literally the next characters of `input`, returning
the remainder. -/
def expectChars (pre input : List Char) : Option (List Char) :=
  match pre, input with
  | [], rest => some rest
  | p :: ps, c :: cs => if c = p then expectChars ps cs else none
  | _ :: _, [] => none

/-- Whether the first list is an initial segment of the second. -/
def listStarts : List Char → List Char → Bool
  | [], _ => true
  | _ :: _, [] => false
  | p :: ps, c :: cs => p = c && listStarts ps cs

/-- The pending work of the recursive-descent JSON parser: a value to read,
the members of an object after its opening brace, or the elements of an
array after its opening bracket (for the latter two, `first` is true while
nothing has been read yet, so that `\x7b\x7d` is accepted but
`\x7b"a":1,\x7d` is not). -/
inductive ParseTask where
  | val (input : List Char) : ParseTask
  | objBody (input : List Char) (first : Bool)
      (acc : List (String × JsonVal)) : ParseTask
  | arrBody (input : List Char) (first : Bool)
      (acc : List JsonVal) : ParseTask

/-- Recursive-descent parse, mirroring `json.loads`; the three mutually
recursive procedures are fused into one function recursing structurally on
`fuel`, which only forces termination: it strictly exceeds the number of
recursive calls any input of the given length can cause. -/
def parseStep : Nat → ParseTask → Option (JsonVal × List Char)
  | 0, _ => none
  | fuel + 1, .val input =>
    match skipWs input with
    | [] => none
    | c :: cs =>
      if c = '"' then
        match parseStrChars (cs.length + 1) cs with
        | some (out, r) => some (.str (String.mk out), r)
        | none => none
      else if c = '\x7b' then parseStep fuel (.objBody (skipWs cs) true [])
      else if c = '[' then parseStep fuel (.arrBody (skipWs cs) true [])
      else if c = 't' then
        match expectChars ['r', 'u', 'e'] cs with
        | some r => some (.bool true, r)
        | none => none
      else if c = 'f' then
        match expectChars ['a', 'l', 's', 'e'] cs with
        | some r => some (.bool false, r)
        | none => none
      else if c = 'n' then
        match expectChars ['u', 'l', 'l'] cs with
        | some r => some (.null, r)
        | none => none
      else
        match parseIntLit (c :: cs) with
        | some (n, r) => some (.num n, r)
        | none => none
  | fuel + 1, .objBody input first acc =>
    match input with
    | '\x7d' :: r => if first then some (.obj acc, r) else none
    | '"' :: cs =>
      match parseStrChars (cs.length + 1) cs with
      | some (key, r1) =>
        match skipWs r1 with
        | ':' :: r2 =>
          match parseStep fuel (.val r2) with
          | some (v, r3) =>
            let acc := acc ++ [(String.mk key, v)]
            match skipWs r3 with
            | ',' :: r4 => parseStep fuel (.objBody (skipWs r4) false acc)
            | '\x7d' :: r4 => some (.obj acc, r4)
            | _ => none
          | none => none
        | _ => none
      | none => none
    | _ => none
  | fuel + 1, .arrBody input first acc =>
    match input with
    | ']' :: r => if first then some (.arr acc, r) else none
    | cs =>
      match parseStep fuel (.val cs) with
      | some (v, r1) =>
        let acc := acc ++ [v]
        match skipWs r1 with
        | ',' :: r2 => parseStep fuel (.arrBody (skipWs r2) false acc)
        | ']' :: r2 => some (.arr acc, r2)
        | _ => none
      | none => none

/-- Python `json.loads`: parse a complete JSON document; trailing content other
than whitespace is an error (`json.JSONDecodeError`), modelled as `none`. -/
def json_loads (s : String) : Option JsonVal :=
  match parseStep (2 * s.data.length + 2) (.val s.data) with
  | some (v, rest) => if (skipWs rest).isEmpty then some v else none
  | none => none

/-- Python `s.startswith(marker)`, on code points. -/
def pyStartsWith (s marker : String) : Bool :=
  listStarts marker.data s.data

/-- Python slicing `s[n:]`, on code points. -/
def pyDrop (s : String) (n : Nat) : String :=
  String.mk (s.data.drop n)

/-- A Python exception that `call_dify_api`'s loop body can raise and that
its `except requests.exceptions.RequestException` clause does not catch. -/
inductive PyError where
  | typeError : PyError
  | keyError : PyError
  deriving DecidableEq

/-- Python `dict` lookup on a decoded JSON object: with duplicate keys,
`json.loads` keeps the last occurrence, so the lookup returns the last
binding of the key. -/
def objGet (fields : List (String × JsonVal)) (k : String) : Option JsonVal :=
  fields.foldl (fun acc kv => if kv.1 = k then some kv.2 else acc) none

/-- Python `k in json_data` for a string `k`: key lookup on a dict,
substring test on a str, membership (string equality only) on a list, and a
`TypeError` on the non-iterable types. -/
def pyContainsStr (v : JsonVal) (k : String) : Except PyError Bool :=
  match v with
  | .obj fields => .ok (objGet fields k).isSome
  | .str s => .ok (decide (k.data <:+: s.data))
  | .arr elems =>
    .ok (elems.any fun e =>
      match e with
      | .str s => s = k
      | _ => false)
  | _ => .error .typeError

/-- Python `json_data[k]` for a string `k`: dict indexing; indexing a str,
list, int, bool or None with a string raises `TypeError`. -/
def pySubscriptStr (v : JsonVal) (k : String) : Except PyError JsonVal :=
  match v with
  | .obj fields =>
    match objGet fields k with
    | some w => .ok w
    | none => .error .keyError
  | _ => .error .typeError

/-- Python `full_response += json_data['answer']`: appending a non-`str`
value to a `str` raises `TypeError`. -/
def pyStrAdd (acc : String) (v : JsonVal) : Except PyError String :=
  match v with
  | .str s => .ok (acc ++ s)
  | _ => .error .typeError

/-- One iteration of `call_dify_api`'s `for line in response.iter_lines()`
body: skip empty lines; for a line starting with `data:`, `json.loads` the
remainder (a `json.JSONDecodeError` is swallowed by `continue`); if the
decoded value contains an `"answer"` key, append its value to
`full_response`.  Lines not starting with `data:` fall through unchanged. -/
def processLine (full_response : String) (line : String) : Except PyError String :=
  if line = "" then .ok full_response
  else if pyStartsWith line "data:" then
    match json_loads (pyDrop line 5) with
    | none => .ok full_response
    | some json_data =>
      match pyContainsStr json_data "answer" with
      | .error e => .error e
      | .ok false => .ok full_response
      | .ok true =>
        match pySubscriptStr json_data "answer" with
        | .error e => .error e
        | .ok v => pyStrAdd full_response v
  else .ok full_response

/-- The whole streaming loop: fold `processLine` over the decoded lines,
starting from the empty accumulator; an uncaught exception aborts the
loop. -/
def aggLoop (full_response : String) : List String → Except PyError String
  | [] => .ok full_response
  | line :: rest =>
    match processLine full_response line with
    | .ok acc => aggLoop acc rest
    | .error e => .error e

/-- Outcome of the `requests.post(..., stream=True)` call together with the
subsequent `raise_for_status()` and body iteration: either the transport
succeeds and the body decodes to these lines, or a
`requests.exceptions.RequestException` with detail `str(e)` is raised
(connection error, timeout, non-success status, mid-stream failure). -/
inductive HttpOutcome where
  | success (lines : List String) : HttpOutcome
  | transportError (detail : String) : HttpOutcome

/-- The function `call_dify_api(user_id, image_bytes)`, with the network's behaviour made
an explicit argument.  On transport success it aggregates the streamed
lines and returns the accumulator, or the fixed fallback sentinel when the
accumulator is empty; a `requests.exceptions.RequestException` is caught
and turned into the fixed error sentinel with the detail appended; any
other exception from the loop propagates (`.error`). -/
def call_dify_api (user_id : String) (image_bytes : List Nat)
    (net : HttpOutcome) : Except PyError String :=
  match net with
  | .success lines =>
    match aggLoop "" lines with
    | .ok full_response =>
      .ok (if full_response = "" then "分析完成，但未收到有效回覆。" else full_response)
    | .error e => .error e
  | .transportError detail =>
    .ok ("無法連接 Dify 專家系統，請稍後再試。錯誤：" ++ detail)

/-- Number of `requests.post` calls one invocation of `call_dify_api`
issues: the single call at the top of its `try` block, on every path — the
function never retries. -/
def dify_post_requests : HttpOutcome → Nat := fun _ => 1

/-- Result of the module-level configuration block: either the process
terminated via `sys.exit` after printing a diagnostic, or it is running
with the four configuration strings bound. -/
inductive StartupResult where
  | exited (message : String) (code : Nat) : StartupResult
  | running (channel_secret channel_access_token dify_api_key dify_api_url : String) :
      StartupResult

/-- The module-level startup sequence: read the four environment variables
(an argument `none` means the variable is unset, so `os.getenv` returned
its `None` default), then check them in source order; the first missing one
is reported with `print` and the process exits with status 1. -/
def startup (line_channel_secret line_channel_access_token
    dify_key dify_url : Option String) : StartupResult :=
  match line_channel_secret with
  | none => .exited "Specify LINE_CHANNEL_SECRET as environment variable." 1
  | some channel_secret =>
    match line_channel_access_token with
    | none => .exited "Specify LINE_CHANNEL_ACCESS_TOKEN as environment variable." 1
    | some channel_access_token =>
      match dify_key with
      | none => .exited "Specify DIFY_API_KEY as environment variable." 1
      | some dify_api_key =>
        match dify_url with
        | none => .exited "Specify DIFY_API_URL as environment variable." 1
        | some dify_api_url =>
          .running channel_secret channel_access_token dify_api_key dify_api_url

/-- The fields of an image message event that `handle_image_message`
reads: `event.reply_token`, `event.message.id`, `event.source.user_id`. -/
structure ImageEvent where
  reply_token : String
  message_id : String
  user_id : String

/-- An inbound webhook event, as decoded by the platform SDK: a text
message event or an image message event. -/
inductive InboundEvent where
  | text (reply_token : String) (content : String) : InboundEvent
  | image (ev : ImageEvent) : InboundEvent

/-- An externally visible action performed against the messaging platform
or the analysis API. -/
inductive Effect where
  | replyMessage (reply_token text : String) : Effect
  | getMessageContent (message_id : String) : Effect
  | difyCall (user_id : String) (image_bytes : List Nat) : Effect
  | pushMessage (to_user text : String) : Effect

/-- Handler `handle_text_message`: reply to the event's reply token with the fixed
canned text; no other effect. -/
def handle_text_message (reply_token : String) : List Effect :=
  [.replyMessage reply_token "您好！請直接上傳管件圖面，我將為您進行分析。"]

/-- Handler `handle_image_message`, with the two collaborators explicit:
`get_message_content` is the platform's content download keyed by message
id, and `net` is the network behaviour seen by the inner `call_dify_api`
call.  Returns the effects performed in order, and the exception that ended
the handler if `call_dify_api` raised one (the push is only reached when
`call_dify_api` returns). -/
def handle_image_message (event : ImageEvent)
    (get_message_content : String → List Nat) (net : HttpOutcome) :
    List Effect × Option PyError :=
  let ackText := "已收到您的圖面，專家系統正在進行分析，請稍候約 15-30 秒..."
  let image_bytes := get_message_content event.message_id
  let user_id := event.user_id
  match call_dify_api user_id image_bytes net with
  | .ok dify_response_text =>
    ([.replyMessage event.reply_token ackText,
      .getMessageContent event.message_id,
      .difyCall user_id image_bytes,
      .pushMessage user_id dify_response_text], none)
  | .error e =>
    ([.replyMessage event.reply_token ackText,
      .getMessageContent event.message_id,
      .difyCall user_id image_bytes], some e)

/-- Dispatch a list of decoded events to their handlers in order,
collecting effects; an exception escaping a handler stops the dispatch. -/
def dispatchEvents (get_message_content : String → List Nat)
    (net : HttpOutcome) : List InboundEvent → List Effect × Option PyError
  | [] => ([], none)
  | .text reply_token _ :: rest =>
    let (effs, err) := dispatchEvents get_message_content net rest
    (handle_text_message reply_token ++ effs, err)
  | .image ev :: rest =>
    match handle_image_message ev get_message_content net with
    | (effs, none) =>
      let (effs2, err) := dispatchEvents get_message_content net rest
      (effs ++ effs2, err)
    | (effs, some e) => (effs, some e)

/-- An exception raised out of `handler.handle`. -/
inductive HandleError where
  | invalidSignature : HandleError
  | uncaught (e : PyError) : HandleError

/-- Modelled from the spec: `WebhookHandler.handle` of the linebot package
(not under `src/`) first verifies the request signature against the channel
secret, raising `InvalidSignatureError` — before any event is decoded or
dispatched — when verification fails; on success it decodes the body into
events and dispatches each to its registered handler.  `sigValid` abstracts
the verification verdict for the given body and signature header. -/
def handlerHandle (sigValid : Bool) (events : List InboundEvent)
    (get_message_content : String → List Nat) (net : HttpOutcome) :
    List Effect × Option HandleError :=
  if sigValid then
    let (effs, err) := dispatchEvents get_message_content net events
    (effs, err.map .uncaught)
  else ([], some .invalidSignature)

/-- The string a single streamed line contributes to the accumulator: the
value of the `"answer"` field when the line is a `data:`-prefixed frame
whose JSON object carries a string-valued `"answer"`, nothing otherwise. -/
def lineDelta (line : String) : Option String :=
  if line = "" then none
  else if pyStartsWith line "data:" then
    match json_loads (pyDrop line 5) with
    | some (.obj fields) =>
      match objGet fields "answer" with
      | some (.str a) => some a
      | _ => none
    | _ => none
  else none

/-- A line of the kind claim C1 quantifies over: blank, or a
`data:`-prefixed frame decoding to a JSON object whose `"answer"` field, if
present, is a string. -/
def dataFrameLine (line : String) : Bool :=
  line = "" ||
  (pyStartsWith line "data:" &&
    match json_loads (pyDrop line 5) with
    | some (.obj fields) =>
      match objGet fields "answer" with
      | some (.str _) => true
      | some _ => false
      | none => true
    | _ => false)

/-- Concatenation, in arrival order, of the `"answer"` values the streamed
lines carry. -/
def answersConcat (lines : List String) : String :=
  lines.foldr (fun l acc => (lineDelta l).getD "" ++ acc) ""

/-- A line the `except json.JSONDecodeError: continue` branch swallows: it
reaches the `json.loads` call (starts with `data:`) and the text after the
marker fails JSON parsing. -/
def malformedLine (line : String) : Bool :=
  line ≠ "" && pyStartsWith line "data:" && (json_loads (pyDrop line 5)).isNone

/-- The five streamed lines of the spec's scenario. -/
def scenarioLines : List String :=
  ["data:\x7b\"answer\":\"Hel\"\x7d",
   "data:\x7b\"answer\":\"lo\"\x7d",
   "",
   "data:\x7b\"other\":\"x\"\x7d",
   "data:\x7b\"answer\":\"!\"\x7d"]

/-- How one POST to `/callback` ends. -/
inductive CallbackOutcome where
  | ok200 : CallbackOutcome
  | abort400 : CallbackOutcome
  | headerKeyError : CallbackOutcome
  | uncaught (e : PyError) : CallbackOutcome

/-- The `/callback` endpoint.  `hasHeader` says whether the request carries
an `X-Line-Signature` header: when absent, `request.headers[...]` raises a
`KeyError` that nothing in the function catches.  Otherwise the body is
handed to `handler.handle`; `InvalidSignatureError` is answered with
`abort(400)`, success with the literal `'OK'`, and any other exception
escapes. -/
def callback (hasHeader : Bool) (sigValid : Bool) (events : List InboundEvent)
    (get_message_content : String → List Nat) (net : HttpOutcome) :
    CallbackOutcome × List Effect :=
  if hasHeader then
    match handlerHandle sigValid events get_message_content net with
    | (effs, none) => (.ok200, effs)
    | (effs, some .invalidSignature) => (.abort400, effs)
    | (effs, some (.uncaught e)) => (.uncaught e, effs)
  else (.headerKeyError, [])

/-! ## Lemmas about the aggregation loop -/

theorem processLine_of_dataFrameLine {l : String} (h : dataFrameLine l = true)
    (acc : String) : processLine acc l = .ok (acc ++ (lineDelta l).getD "") := by
  by_cases h0 : l = ""
  · simp [processLine, lineDelta, h0]
  · unfold dataFrameLine at h
    simp only [h0, decide_eq_true_eq, Bool.false_or, Bool.and_eq_true, decide_False,
      Bool.false_eq_true, false_or] at h
    obtain ⟨h1, h2⟩ := h
    unfold processLine lineDelta
    simp only [h0, if_false, h1, if_true]
    cases hj : json_loads (pyDrop l 5) with
    | none => simp [String.append_empty]
    | some j =>
      rw [hj] at h2
      cases j with
      | obj fields =>
        dsimp only at h2 ⊢
        cases ho : objGet fields "answer" with
        | none => simp [pyContainsStr, ho, String.append_empty]
        | some v =>
          rw [ho] at h2
          cases v with
          | str a => simp [pyContainsStr, pySubscriptStr, pyStrAdd, ho]
          | null => simp at h2
          | bool b => simp at h2
          | num n => simp at h2
          | arr es => simp at h2
          | obj fs => simp at h2
      | null => simp at h2
      | bool b => simp at h2
      | num n => simp at h2
      | str s => simp at h2
      | arr es => simp at h2

theorem aggLoop_of_dataFrameLines {lines : List String}
    (h : ∀ l ∈ lines, dataFrameLine l = true) (acc : String) :
    aggLoop acc lines = .ok (acc ++ answersConcat lines) := by
  induction lines generalizing acc with
  | nil => simp [aggLoop, answersConcat, String.append_empty]
  | cons l rest ih =>
    have hl : dataFrameLine l = true := h l (List.mem_cons_self l rest)
    have hrest : ∀ x ∈ rest, dataFrameLine x = true :=
      fun x hx => h x (List.mem_cons_of_mem l hx)
    simp only [aggLoop]
    rw [processLine_of_dataFrameLine hl acc]
    dsimp only
    rw [ih hrest (acc ++ (lineDelta l).getD "")]
    simp [answersConcat, String.append_assoc]

theorem processLine_of_malformedLine {l : String} (h : malformedLine l = true)
    (acc : String) : processLine acc l = .ok acc := by
  unfold malformedLine at h
  simp only [Bool.and_eq_true, decide_eq_true_eq, Option.isNone_iff_eq_none,
    bne_iff_ne, ne_eq] at h
  obtain ⟨⟨h0, h1⟩, h2⟩ := h
  unfold processLine
  simp [h0, h1, h2]

theorem aggLoop_filter_malformed (lines : List String) (acc : String) :
    aggLoop acc lines = aggLoop acc (lines.filter fun l => !(malformedLine l)) := by
  induction lines generalizing acc with
  | nil => rfl
  | cons l rest ih =>
    by_cases hm : malformedLine l = true
    · rw [List.filter_cons_of_neg (by simp [hm])]
      simp only [aggLoop]
      rw [processLine_of_malformedLine hm]
      exact ih acc
    · rw [List.filter_cons_of_pos (by simp [hm])]
      simp only [aggLoop]
      cases hp : processLine acc l with
      | ok a => exact ih a
      | error e => rfl

theorem processLine_extends {acc l r : String} (h : processLine acc l = .ok r) :
    ∃ t, r = acc ++ t := by
  unfold processLine at h
  by_cases h0 : l = ""
  · simp only [h0, if_true, Except.ok.injEq] at h
    exact ⟨"", by rw [← h, String.append_empty]⟩
  · simp only [h0, if_false] at h
    by_cases h1 : pyStartsWith l "data:"
    · simp only [h1, if_true] at h
      cases hj : json_loads (pyDrop l 5) with
      | none =>
        rw [hj] at h
        exact ⟨"", by cases h; rw [String.append_empty]⟩
      | some j =>
        rw [hj] at h
        dsimp only at h
        cases hc : pyContainsStr j "answer" with
        | error e => rw [hc] at h; cases h
        | ok b =>
          rw [hc] at h
          cases b with
          | false =>
            dsimp only at h
            exact ⟨"", by cases h; rw [String.append_empty]⟩
          | true =>
            dsimp only at h
            cases hs : pySubscriptStr j "answer" with
            | error e => rw [hs] at h; cases h
            | ok v =>
              rw [hs] at h
              dsimp only at h
              cases v with
              | str s => exact ⟨s, by cases h; rfl⟩
              | null => cases h
              | bool b => cases h
              | num n => cases h
              | arr es => cases h
              | obj fs => cases h
    · simp only [h1, if_false, Bool.false_eq_true] at h
      simp only [Except.ok.injEq] at h
      exact ⟨"", by rw [← h, String.append_empty]⟩

theorem aggLoop_extends :
    ∀ lines (acc r : String), aggLoop acc lines = .ok r → ∃ t, r = acc ++ t := by
  intro lines
  induction lines with
  | nil =>
    intro acc r h
    cases h
    exact ⟨"", by rw [String.append_empty]⟩
  | cons l rest ih =>
    intro acc r h
    simp only [aggLoop] at h
    cases hp : processLine acc l with
    | ok a =>
      rw [hp] at h
      dsimp only at h
      obtain ⟨t1, ht1⟩ := processLine_extends hp
      obtain ⟨t2, ht2⟩ := ih a r h
      exact ⟨t1 ++ t2, by rw [ht2, ht1, String.append_assoc]⟩
    | error e => rw [hp] at h; cases h

/-! ## Claim theorems -/

/-- C1: for every streamed body of well-formed `data:`-prefixed frames whose
JSON objects carry a string `"answer"` field (blank lines and answerless
frames allowed), the aggregation loop yields exactly the concatenation of
the `"answer"` values in arrival order, and — whenever that concatenation
is non-empty — `call_dify_api` returns it unchanged.  The spec's scenario
(`data:` frames `Hel`, `lo`, a blank line, an `other` frame, `!`) is the
witness, yielding `"Hello!"`. -/
theorem c1_streaming_concatenation (lines : List String)
    (h : ∀ l ∈ lines, dataFrameLine l = true) :
    aggLoop "" lines = .ok (answersConcat lines) ∧
    (answersConcat lines ≠ "" → ∀ user_id image_bytes,
      call_dify_api user_id image_bytes (.success lines) = .ok (answersConcat lines)) := by
  have hagg := aggLoop_of_dataFrameLines h ""
  rw [String.empty_append] at hagg
  refine ⟨hagg, fun hne user_id image_bytes => ?_⟩
  unfold call_dify_api
  dsimp only
  rw [hagg]
  simp [hne]

theorem c1_streaming_concatenation_witness :
    (∀ l ∈ scenarioLines, dataFrameLine l = true) ∧
    call_dify_api "U1" [0] (.success scenarioLines) = .ok "Hello!" :=
  ⟨by decide,
   ((c1_streaming_concatenation scenarioLines (by decide)).2 (by decide)
     "U1" [0]).trans (congrArg Except.ok (by decide))⟩

/-- C2: a line whose text after the `data:` marker fails JSON parsing is
skipped silently — it leaves the accumulator unchanged and does not abort
the loop — and the final result of `call_dify_api` equals the result on the
same stream with all such malformed lines removed. -/
theorem c2_malformed_lines_skipped :
    (∀ acc l, malformedLine l = true → processLine acc l = .ok acc) ∧
    (∀ lines user_id image_bytes,
      call_dify_api user_id image_bytes (.success lines) =
        call_dify_api user_id image_bytes
          (.success (lines.filter fun l => !(malformedLine l)))) := by
  refine ⟨fun acc l h => processLine_of_malformedLine h acc, ?_⟩
  intro lines user_id image_bytes
  unfold call_dify_api
  dsimp only
  rw [aggLoop_filter_malformed lines ""]

theorem c2_malformed_lines_skipped_witness :
    processLine "A" "data:\x7boops" = .ok "A" :=
  c2_malformed_lines_skipped.1 "A" "data:\x7boops" (by decide)

/-- C3: whenever the stream ends with the accumulator still empty (zero
lines, or no line contributed an `"answer"`), `call_dify_api` returns the
fixed fallback sentinel, which is not the empty string; moreover no
successful return of `call_dify_api` is ever the empty string. -/
theorem c3_empty_stream_fallback :
    (∀ user_id image_bytes lines, aggLoop "" lines = .ok "" →
      call_dify_api user_id image_bytes (.success lines) =
        .ok "分析完成，但未收到有效回覆。") ∧
    (∀ user_id image_bytes net r,
      call_dify_api user_id image_bytes net = .ok r → r ≠ "") := by
  constructor
  · intro user_id image_bytes lines h
    unfold call_dify_api
    dsimp only
    rw [h]
    rfl
  · intro user_id image_bytes net r h
    unfold call_dify_api at h
    cases net with
    | success lines =>
      dsimp only at h
      cases hagg : aggLoop "" lines with
      | ok full_response =>
        rw [hagg] at h
        dsimp only at h
        by_cases he : full_response = ""
        · simp only [he, if_true] at h
          cases h
          decide
        · simp only [he, if_false] at h
          cases h
          exact he
      | error e => rw [hagg] at h; cases h
    | transportError detail =>
      dsimp only at h
      cases h
      intro hbad
      have : ("無法連接 Dify 專家系統，請稍後再試。錯誤：" ++ detail).data = [] :=
        congrArg String.data hbad
      rw [String.data_append] at this
      exact absurd (List.append_eq_nil.mp this).1 (by decide)

theorem c3_empty_stream_fallback_witness :
    call_dify_api "U2" [] (.success ["data:\x7b\"other\":\"x\"\x7d"]) =
      .ok "分析完成，但未收到有效回覆。" :=
  c3_empty_stream_fallback.1 "U2" [] ["data:\x7b\"other\":\"x\"\x7d"] (by rfl)

/-- C4: on any transport-level failure of the analysis call (the
`requests.post`, `raise_for_status`, or the streamed iteration raising a
`requests.exceptions.RequestException`), `call_dify_api` returns normally —
`.ok`, never an uncaught exception — with the fixed error sentinel carrying
the failure detail, and it issues exactly one HTTP request, never a
retry. -/
theorem c4_transport_failure_sentinel (user_id : String) (image_bytes : List Nat)
    (detail : String) :
    call_dify_api user_id image_bytes (.transportError detail) =
      .ok ("無法連接 Dify 專家系統，請稍後再試。錯誤：" ++ detail) ∧
    dify_post_requests (.transportError detail) = 1 :=
  ⟨rfl, rfl⟩

/-- C8: the accumulator is monotone: every line either leaves it unchanged
or appends to it (the value before processing a line is a prefix of the
value after), and hence any successful run of the loop only ever extends
its starting accumulator. -/
theorem c8_accumulator_monotone :
    (∀ acc l r, processLine acc l = .ok r → ∃ t, r = acc ++ t) ∧
    (∀ lines acc r, aggLoop acc lines = .ok r → ∃ t, r = acc ++ t) :=
  ⟨fun _ _ _ h => processLine_extends h,
   fun lines acc r h => aggLoop_extends lines acc r h⟩

theorem c8_accumulator_monotone_witness :
    processLine "He" "data:\x7b\"answer\":\"llo\"\x7d" = Except.ok "Hello" ∧
    ∃ t, ("Hello" : String) = "He" ++ t :=
  ⟨by rfl,
   c8_accumulator_monotone.1 "He" "data:\x7b\"answer\":\"llo\"\x7d" "Hello" (by rfl)⟩

/-- C5: for any inbound POST whose signature fails verification (with the
`X-Line-Signature` header present), the callback responds 400 and performs
no effect at all: no event handler runs, no analysis call is made, no reply
or push is sent, whatever events the body carried. -/
theorem c5_invalid_signature_aborts_400 (events : List InboundEvent)
    (get_message_content : String → List Nat) (net : HttpOutcome) :
    callback true false events get_message_content net = (.abort400, []) :=
  rfl

/-- C6: if at least one of the four required environment variables is
unset, startup terminates with exit status 1 and a diagnostic naming a
variable that is indeed missing, before any request is served. -/
theorem c6_missing_env_var_exits (s t k u : Option String)
    (h : s = none ∨ t = none ∨ k = none ∨ u = none) :
    ∃ m, startup s t k u = .exited m 1 ∧
      ((m = "Specify LINE_CHANNEL_SECRET as environment variable." ∧ s = none) ∨
       (m = "Specify LINE_CHANNEL_ACCESS_TOKEN as environment variable." ∧ t = none) ∨
       (m = "Specify DIFY_API_KEY as environment variable." ∧ k = none) ∨
       (m = "Specify DIFY_API_URL as environment variable." ∧ u = none)) := by
  cases s with
  | none => exact ⟨_, rfl, Or.inl ⟨rfl, rfl⟩⟩
  | some cs =>
    cases t with
    | none => exact ⟨_, rfl, Or.inr (Or.inl ⟨rfl, rfl⟩)⟩
    | some ct =>
      cases k with
      | none => exact ⟨_, rfl, Or.inr (Or.inr (Or.inl ⟨rfl, rfl⟩))⟩
      | some ck =>
        cases u with
        | none => exact ⟨_, rfl, Or.inr (Or.inr (Or.inr ⟨rfl, rfl⟩))⟩
        | some cu => rcases h with h | h | h | h <;> simp at h

theorem c6_missing_env_var_exits_witness :
    ∃ m, startup none (some "tok") (some "key") (some "url") = .exited m 1 ∧
      ((m = "Specify LINE_CHANNEL_SECRET as environment variable." ∧
          (none : Option String) = none) ∨
       (m = "Specify LINE_CHANNEL_ACCESS_TOKEN as environment variable." ∧
          some "tok" = none) ∨
       (m = "Specify DIFY_API_KEY as environment variable." ∧ some "key" = none) ∨
       (m = "Specify DIFY_API_URL as environment variable." ∧ some "url" = none)) :=
  c6_missing_env_var_exits none (some "tok") (some "key") (some "url") (Or.inl rfl)

/-- C7: whenever the inner `call_dify_api` call returns a string `s`,
`handle_image_message` performs exactly, and in this order: the fixed
"processing" reply to the event's reply token, the content fetch for the
event's message id, the analysis call with the event's user id and the
fetched bytes, and the push of `s` to that user id. -/
theorem c7_image_message_effect_order (event : ImageEvent)
    (get_message_content : String → List Nat) (net : HttpOutcome) (s : String)
    (h : call_dify_api event.user_id (get_message_content event.message_id) net =
      .ok s) :
    handle_image_message event get_message_content net =
      ([.replyMessage event.reply_token
          "已收到您的圖面，專家系統正在進行分析，請稍候約 15-30 秒...",
        .getMessageContent event.message_id,
        .difyCall event.user_id (get_message_content event.message_id),
        .pushMessage event.user_id s], none) := by
  unfold handle_image_message
  dsimp only
  rw [h]

theorem c7_image_message_effect_order_witness :
    handle_image_message ⟨"RT", "MID", "UID"⟩ (fun _ => [1, 2])
        (.transportError "boom") =
      ([.replyMessage "RT" "已收到您的圖面，專家系統正在進行分析，請稍候約 15-30 秒...",
        .getMessageContent "MID",
        .difyCall "UID" [1, 2],
        .pushMessage "UID" "無法連接 Dify 專家系統，請稍後再試。錯誤：boom"], none) :=
  c7_image_message_effect_order ⟨"RT", "MID", "UID"⟩ (fun _ => [1, 2])
    (.transportError "boom") "無法連接 Dify 專家系統，請稍後再試。錯誤：boom" (by rfl)

/-- C9: a POST to `/callback` without an `X-Line-Signature` header never
reaches signature verification or `abort(400)`: the header lookup raises a
`KeyError` that escapes the handler, with no effect performed, for either
verification verdict and any events — and the outcome is not the specified
400 abort. -/
theorem c9_missing_header_keyerror (sigValid : Bool) (events : List InboundEvent)
    (get_message_content : String → List Nat) (net : HttpOutcome) :
    callback false sigValid events get_message_content net = (.headerKeyError, []) ∧
    (callback false sigValid events get_message_content net).1 ≠ .abort400 :=
  ⟨rfl, fun h => CallbackOutcome.noConfusion h⟩

/-- C10: a parsed frame whose object carries a non-string `"answer"` value
makes `full_response += json_data['answer']` raise a `TypeError`, which the
`except requests.exceptions.RequestException` clause does not catch, so
`call_dify_api` propagates the exception instead of returning a string —
concretely so for the stream consisting of `data:\x7b"answer":null\x7d`. -/
theorem c10_nonstring_answer_typeerror :
    (∀ (acc l : String) fields v, pyStartsWith l "data:" = true →
      json_loads (pyDrop l 5) = some (.obj fields) →
      objGet fields "answer" = some v → (∀ a, v ≠ .str a) →
      processLine acc l = .error .typeError) ∧
    (∀ user_id image_bytes,
      call_dify_api user_id image_bytes
        (.success ["data:\x7b\"answer\":null\x7d"]) = .error .typeError) := by
  constructor
  · intro acc l fields v h1 hj ho hv
    have h0 : ¬(l = "") := by
      intro he
      rw [he] at h1
      exact absurd h1 (by decide)
    unfold processLine
    rw [if_neg h0, if_pos h1, hj]
    dsimp only [pyContainsStr]
    rw [ho]
    dsimp only [pySubscriptStr, Option.isSome_some]
    rw [ho]
    dsimp only [pyStrAdd]
    cases v with
    | str a => exact absurd rfl (hv a)
    | null => rfl
    | bool b => rfl
    | num n => rfl
    | arr es => rfl
    | obj fs => rfl
  · intro user_id image_bytes
    rfl

theorem c10_nonstring_answer_typeerror_witness :
    processLine "" "data:\x7b\"answer\":null\x7d" = .error .typeError :=
  c10_nonstring_answer_typeerror.1 "" "data:\x7b\"answer\":null\x7d"
    [("answer", .null)] .null (by rfl) (by rfl) (by rfl)
    (fun a h => JsonVal.noConfusion h)
